import Mathlib

set_option autoImplicit false

/-
  Shallow embedding of the real-time chat transport core of gary-norman/codex:
  the one-time-password (OTP) credential registry with its retention sweep,
  the websocket upgrade gateway, the per-connection client actor, the event
  router, the send-message handler and the broadcast engine.

  Go maps over string keys are embedded as association lists; Go time.Time
  values are embedded as integers (nanoseconds since epoch), with t1.Before(t2)
  embedded as t1 < t2; fallible Go calls returning (T, error) are embedded as
  Except String T; side effects on the storage collaborator are recorded in an
  explicit effect trace.
-/

namespace Codex

/-! ## Wire-protocol types (websocket event types) -/

/-- Event type discriminator for inbound chat messages. -/
def EventSendMessage : String := "send_message"

/-- Event type discriminator for outbound chat messages. -/
def EventNewMessage : String := "new_message"

/-- Payload of an inbound send_message event. -/
structure SendMessageEvent where
  ChatID : String
  Message : String
deriving DecidableEq, Repr

/-- Sender snapshot carried by an outbound new_message event. -/
structure Sender where
  ID : String
  Username : String
  Avatar : String
deriving DecidableEq, Repr

/-- Payload of an outbound new_message event. -/
structure NewMessageEvent where
  ChatID : String
  MessageID : String
  Content : String
  Sender : Sender
  Created : Int
deriving DecidableEq, Repr

/-- A raw JSON payload, embedded by its decode outcome: a payload that
json.Unmarshal decodes into a SendMessageEvent is represented by the decoded
value, a payload produced by marshalling a NewMessageEvent is represented by
that value, and every other byte string is represented by malformed. -/
inductive EventPayload where
  | sendMsg (m : SendMessageEvent)
  | newMsg (m : NewMessageEvent)
  | malformed
deriving DecidableEq, Repr

/-- The wire envelope: a type tag plus an opaque payload. -/
structure Event where
  type : String
  payload : EventPayload
deriving DecidableEq, Repr

/-- json.Unmarshal of an event payload into a SendMessageEvent: succeeds
exactly on payloads that decode into one. -/
def unmarshalSendMessage : EventPayload → Option SendMessageEvent
  | .sendMsg m => some m
  | _ => none

/-! ## Credential registry (OTP retention map) -/

/-- A one-time password for websocket authentication. -/
structure OTP where
  Key : String
  UserID : String
  Created : Int
deriving DecidableEq, Repr

/-- The zero value of the OTP struct, returned by a failed verification. -/
def OTP.zero : OTP := { Key := "", UserID := "", Created := 0 }

/-- The Go map from OTP keys to OTPs, embedded as an association list. -/
abbrev RetentionMap : Type := List (String × OTP)

/-- Go map indexing: the value stored under a key, if present. -/
def lookupKey : RetentionMap → String → Option OTP
  | [], _ => none
  | p :: rest, k => if p.1 = k then some p.2 else lookupKey rest k

/-- Go map deletion: remove every binding of the given key (a Go map holds at
most one). -/
def eraseKey : RetentionMap → String → RetentionMap
  | [], _ => []
  | p :: rest, k => if p.1 = k then eraseKey rest k else p :: eraseKey rest k

/-- NewOTP: mint an OTP with a fresh key and the current time and store it.
The fresh uuid and the clock reading are passed as arguments. -/
def NewOTP (rm : RetentionMap) (key userID : String) (created : Int) : OTP × RetentionMap :=
  let o : OTP := { Key := key, UserID := userID, Created := created }
  (o, (o.Key, o) :: eraseKey rm o.Key)

/-- VerifyOTP: atomic lookup-and-remove. An absent key returns the zero OTP
and false; a present key is deleted from the map and returned with true. -/
def VerifyOTP (rm : RetentionMap) (otp : String) : (OTP × Bool) × RetentionMap :=
  match lookupKey rm otp with
  | none => ((OTP.zero, false), rm)
  | some otpObj => ((otpObj, true), eraseKey rm otp)

/-- One tick of the retention sweep: range over the map and delete, by its Key
field, every OTP whose creation time plus the retention period is strictly
before the current time. -/
def Retention (rm : RetentionMap) (retentionPeriod now : Int) : RetentionMap :=
  rm.foldl (fun acc p => if p.2.Created + retentionPeriod < now then eraseKey acc p.2.Key else acc) rm

/-! ### Retention map lemmas -/

theorem lookupKey_eraseKey_self (rm : RetentionMap) (k : String) :
    lookupKey (eraseKey rm k) k = none := by
  induction rm with
  | nil => rfl
  | cons p rest ih =>
    by_cases h : p.1 = k
    · simpa [eraseKey, h] using ih
    · simpa [eraseKey, lookupKey, h] using ih

theorem lookupKey_eraseKey_other (rm : RetentionMap) (k k2 : String) (h : k ≠ k2) :
    lookupKey (eraseKey rm k2) k = lookupKey rm k := by
  induction rm with
  | nil => rfl
  | cons p rest ih =>
    by_cases hp : p.1 = k2
    · have hpk : p.1 ≠ k := by
        intro hk
        exact h (hk ▸ hp)
      simp [eraseKey, lookupKey, hp, hpk, Ne.symm h, ih]
    · by_cases hk : p.1 = k
      · simp [eraseKey, lookupKey, hp, hk, h]
      · simp [eraseKey, lookupKey, hp, hk, ih]

theorem lookupKey_foldl_erase (l : List (String × OTP)) (acc : RetentionMap)
    (period now : Int) (k : String)
    (hk : ∀ p ∈ l, p.2.Created + period < now → p.2.Key ≠ k) :
    lookupKey (l.foldl (fun acc p =>
        if p.2.Created + period < now then eraseKey acc p.2.Key else acc) acc) k
      = lookupKey acc k := by
  induction l generalizing acc with
  | nil => rfl
  | cons p rest ih =>
    by_cases hexp : p.2.Created + period < now
    · have hne : p.2.Key ≠ k := hk p (by simp) hexp
      have hrest : ∀ q ∈ rest, q.2.Created + period < now → q.2.Key ≠ k := by
        intro q hq hqe
        exact hk q (by simp [hq]) hqe
      rw [List.foldl_cons, if_pos hexp, ih (eraseKey acc p.2.Key) hrest,
        lookupKey_eraseKey_other acc k p.2.Key (fun h => hne h.symm)]
    · have hrest : ∀ q ∈ rest, q.2.Created + period < now → q.2.Key ≠ k := by
        intro q hq hqe
        exact hk q (by simp [hq]) hqe
      rw [List.foldl_cons, if_neg hexp, ih acc hrest]

theorem lookupKey_mem (rm : RetentionMap) (k : String) (o : OTP)
    (h : lookupKey rm k = some o) : (k, o) ∈ rm := by
  induction rm with
  | nil => simp [lookupKey] at h
  | cons p rest ih =>
    by_cases hp : p.1 = k
    · simp only [lookupKey, if_pos hp] at h
      have ho : p.2 = o := Option.some.inj h
      have hpe : p = (k, o) := by
        cases p
        simp_all
      rw [hpe]
      exact List.mem_cons_self _ _
    · simp only [lookupKey, if_neg hp] at h
      exact List.mem_cons_of_mem _ (ih h)

theorem lookupKey_unique (rm : RetentionMap) (k : String) (o o2 : OTP)
    (hnd : (rm.map Prod.fst).Nodup)
    (h : lookupKey rm k = some o) (hmem : (k, o2) ∈ rm) : o2 = o := by
  induction rm with
  | nil => simp at hmem
  | cons p rest ih =>
    rw [List.map_cons, List.nodup_cons] at hnd
    rcases List.mem_cons.mp hmem with heq | htail
    · have hp : p.1 = k := by rw [← heq]
      simp only [lookupKey, if_pos hp] at h
      have : p.2 = o := Option.some.inj h
      rw [← heq] at this
      exact this
    · by_cases hp : p.1 = k
      · exfalso
        have : k ∈ rest.map Prod.fst := List.mem_map.mpr ⟨(k, o2), htail, rfl⟩
        exact hnd.1 (hp ▸ this)
      · simp only [lookupKey, if_neg hp] at h
        exact ih hnd.2 h htail

/-! ## Claim theorems: credential registry -/

/-- Claim C1: VerifyOTP is single-use. If a first verification of token t
succeeds, a second verification of t on the resulting store returns not-found
and leaves the store unchanged; a token absent from the store (never issued)
verifies as not-found; and a successful verification is exactly a
lookup-and-remove: it returns the stored credential and deletes its key. -/
theorem verifyOTP_single_use (rm : RetentionMap) (t : String) :
    ((VerifyOTP rm t).1.2 = true →
        (VerifyOTP (VerifyOTP rm t).2 t).1.2 = false ∧
        (VerifyOTP (VerifyOTP rm t).2 t).2 = (VerifyOTP rm t).2) ∧
    (lookupKey rm t = none → (VerifyOTP rm t).1.2 = false) ∧
    (∀ o : OTP, lookupKey rm t = some o →
        VerifyOTP rm t = ((o, true), eraseKey rm t)) := by
  refine ⟨?_, ?_, ?_⟩
  · intro hfound
    cases hlk : lookupKey rm t with
    | none => simp [VerifyOTP, hlk] at hfound
    | some o =>
      have hsnd : (VerifyOTP rm t).2 = eraseKey rm t := by
        simp [VerifyOTP, hlk]
      rw [hsnd]
      simp [VerifyOTP, lookupKey_eraseKey_self]
  · intro hnone
    simp [VerifyOTP, hnone]
  · intro o hsome
    simp [VerifyOTP, hsome]

/-- Claim C1 witness: in a store holding token tokA for user u1, verifying
tokA succeeds once and fails the second time; verifying the never-issued
token zzz fails. -/
theorem verifyOTP_single_use_witness :
    ((VerifyOTP (VerifyOTP [("tokA", ⟨"tokA", "u1", 0⟩)] "tokA").2 "tokA").1.2 = false ∧
      (VerifyOTP (VerifyOTP [("tokA", ⟨"tokA", "u1", 0⟩)] "tokA").2 "tokA").2
        = (VerifyOTP [("tokA", ⟨"tokA", "u1", 0⟩)] "tokA").2) ∧
    (VerifyOTP [("tokA", ⟨"tokA", "u1", 0⟩)] "zzz").1.2 = false ∧
    VerifyOTP [("tokA", ⟨"tokA", "u1", 0⟩)] "tokA"
      = ((⟨"tokA", "u1", 0⟩, true), []) := by
  refine ⟨(verifyOTP_single_use [("tokA", ⟨"tokA", "u1", 0⟩)] "tokA").1 (by decide),
    (verifyOTP_single_use [("tokA", ⟨"tokA", "u1", 0⟩)] "zzz").2.1 (by decide),
    ((verifyOTP_single_use [("tokA", ⟨"tokA", "u1", 0⟩)] "tokA").2.2 ⟨"tokA", "u1", 0⟩ (by decide))⟩

/-- Claim C10: the retention sweep never evicts an unexpired credential. On a
sweep tick at time now, every stored credential whose creation time plus the
retention period is not strictly before now is still stored, unchanged, after
the tick. The hypotheses state the Go-map representation invariants: keys are
unique and each OTP is stored under its own Key field (both hold for every map
built by NewOTP). -/
theorem retention_keeps_unexpired (rm : RetentionMap) (period now : Int)
    (k : String) (o : OTP)
    (hnd : (rm.map Prod.fst).Nodup)
    (hinv : ∀ p ∈ rm, p.2.Key = p.1)
    (hmem : lookupKey rm k = some o)
    (hfresh : ¬ o.Created + period < now) :
    lookupKey (Retention rm period now) k = some o := by
  rw [Retention, lookupKey_foldl_erase rm rm period now k ?_]
  · exact hmem
  · intro p hp hexp hkey
    have hk1 : p.1 = k := (hinv p hp) ▸ hkey
    have hpmem : (k, p.2) ∈ rm := by
      have := hp
      cases p
      simp_all
    have : p.2 = o := lookupKey_unique rm k o p.2 hnd hmem hpmem
    rw [this] at hexp
    exact hfresh hexp

/-- Claim C10 witness: with retention period 5 at time 7, the sweep deletes
the credential created at time 0 but keeps the one created at time 10. -/
theorem retention_keeps_unexpired_witness :
    lookupKey (Retention [("a", ⟨"a", "u1", 10⟩), ("b", ⟨"b", "u2", 0⟩)] 5 7) "a"
      = some ⟨"a", "u1", 10⟩ ∧
    lookupKey (Retention [("a", ⟨"a", "u1", 10⟩), ("b", ⟨"b", "u2", 0⟩)] 5 7) "b"
      = none :=
  ⟨retention_keeps_unexpired [("a", ⟨"a", "u1", 10⟩), ("b", ⟨"b", "u2", 0⟩)] 5 7
      "a" ⟨"a", "u1", 10⟩ (by decide) (by decide) (by decide) (by decide),
    by decide⟩

/-! ## Connection actors and the storage collaborator -/

/-- A connection actor as the broadcast engine and the handlers see it: its
authenticated user identity and its bounded outbound (egress) queue. The
readiness of the unbuffered Go channel to accept a message is embedded as a
remaining capacity; a send that the channel cannot accept is dropped. -/
structure Client where
  userID : String
  egress : List Event
  capacity : Nat
deriving DecidableEq, Repr

/-- NewClient: a freshly constructed actor bound to a user identity, with an
empty egress queue. -/
def NewClient (userID : String) (capacity : Nat) : Client :=
  { userID := userID, egress := [], capacity := capacity }

/-- The handler-side view of the sending actor. -/
structure ClientCtx where
  userID : String
deriving DecidableEq, Repr

/-- The chat storage collaborator (sqlite.ChatModel) as consumed by the core. -/
structure ChatModel where
  IsUserInChat : String → String → Except String Bool
  CreateChatMessage : String → String → String → Except String String
  GetChatParticipantIDs : String → Except String (List String)

/-- The user storage collaborator (sqlite.UserModel) as consumed by the core. -/
structure UserModel where
  GetUserByID : String → Except String Sender

/-- The ambient collaborators of the manager: storage handles, the uuid parser
(google/uuid Parse, embedded as an abstract partial parser) and the clock. -/
structure World where
  Chats : ChatModel
  Users : UserModel
  uuidParse : String → Option String
  now : Int

/-! ## Broadcast engine -/

/-- The select with default on the egress channel: enqueue the event if the
queue can accept it, otherwise drop it for that recipient (non-blocking). -/
def tryEnqueue (c : Client) (e : Event) : Client :=
  if c.egress.length < c.capacity then { c with egress := c.egress ++ [e] } else c

/-- The inner loop of the broadcast fan-out for one client: scan the
participant-id list; at the first id equal to the client identity, attempt the
enqueue and break. Returns the updated client and the number of enqueue
attempts made for that client. -/
def offerLoop (c : Client) (e : Event) : List String → Client × Nat
  | [] => (c, 0)
  | pid :: rest =>
    if c.userID = pid then (tryEnqueue c e, 1) else offerLoop c e rest

/-- BroadcastToChatParticipants: resolve the authoritative participant set for
the chat from storage, build the outbound new_message event, and under the
read lock visit every registered client, offering the event to each whose
user identity is in the participant list. -/
def BroadcastToChatParticipants (w : World) (clients : List Client) (chatID : String)
    (newMsgEvent : NewMessageEvent) : Except String (List Client) :=
  match w.Chats.GetChatParticipantIDs chatID with
  | .error e => .error e
  | .ok participantIDs =>
    let event : Event := { type := EventNewMessage, payload := .newMsg newMsgEvent }
    .ok (clients.map (fun c => (offerLoop c event participantIDs).1))

/-! ### Broadcast lemmas -/

theorem offerLoop_not_mem (c : Client) (e : Event) (pids : List String)
    (h : c.userID ∉ pids) : offerLoop c e pids = (c, 0) := by
  induction pids with
  | nil => rfl
  | cons pid rest ih =>
    have h1 : c.userID ≠ pid := fun heq => h (heq ▸ List.mem_cons_self _ _)
    have h2 : c.userID ∉ rest := fun hm => h (List.mem_cons_of_mem _ hm)
    simp [offerLoop, h1, ih h2]

theorem offerLoop_mem (c : Client) (e : Event) (pids : List String)
    (h : c.userID ∈ pids) : offerLoop c e pids = (tryEnqueue c e, 1) := by
  induction pids with
  | nil => simp at h
  | cons pid rest ih =>
    by_cases h1 : c.userID = pid
    · simp [offerLoop, h1]
    · have h2 : c.userID ∈ rest := by
        rcases List.mem_cons.mp h with heq | hm
        · exact absurd heq h1
        · exact hm
      simp [offerLoop, h1, ih h2]

/-! ## Claim theorems: broadcast engine -/

/-- Claim C3: broadcast fidelity. When storage resolves the participant set of
the chat, a successful broadcast maps each registered client through the
per-client offer; a client whose user identity is not in the participant list
is left completely unchanged (never enqueued onto), and a client whose user
identity is in the list is offered the event exactly once. The offer decision
depends only on the client identity and the storage-resolved participant list,
never on the connection registry. -/
theorem broadcast_fidelity (w : World) (cs cs2 : List Client) (chatID : String)
    (m : NewMessageEvent) (pids : List String)
    (hp : w.Chats.GetChatParticipantIDs chatID = .ok pids)
    (hb : BroadcastToChatParticipants w cs chatID m = .ok cs2) :
    cs2 = cs.map
      (fun c => (offerLoop c { type := EventNewMessage, payload := .newMsg m } pids).1) ∧
    (∀ c : Client, c.userID ∉ pids →
      offerLoop c { type := EventNewMessage, payload := .newMsg m } pids = (c, 0)) ∧
    (∀ c : Client, c.userID ∈ pids →
      offerLoop c { type := EventNewMessage, payload := .newMsg m } pids
        = (tryEnqueue c { type := EventNewMessage, payload := .newMsg m }, 1)) := by
  refine ⟨?_, fun c hc => offerLoop_not_mem c _ pids hc,
    fun c hc => offerLoop_mem c _ pids hc⟩
  rw [BroadcastToChatParticipants, hp] at hb
  exact (Except.ok.inj hb).symm

/-! ### Concrete collaborators for witnesses -/

/-- Example chat storage: chat c1 has participants u1 and u2; the chat id err
makes the membership lookup fail; the chat id err2 makes persistence fail. -/
def chatsEx : ChatModel :=
  { IsUserInChat := fun chat user =>
      if chat = "err" then .error "db down"
      else .ok (decide (chat = "c1" ∧ (user = "u1" ∨ user = "u2"))),
    CreateChatMessage := fun chat _user _msg =>
      if chat = "err2" then .error "insert failed" else .ok "m1",
    GetChatParticipantIDs := fun chat =>
      if chat = "c1" then .ok ["u1", "u2"] else .error "no such chat" }

/-- Example user storage: every lookup succeeds with a fixed profile. -/
def usersEx : UserModel :=
  { GetUserByID := fun user => .ok { ID := user, Username := "name", Avatar := "a.png" } }

/-- Example world: the string bad fails uuid parsing, every other chat id
parses to itself; the clock reads 100. -/
def wEx : World :=
  { Chats := chatsEx, Users := usersEx,
    uuidParse := fun s => if s = "bad" then none else some s, now := 100 }

/-- Example outbound event payload. -/
def mEx : NewMessageEvent :=
  { ChatID := "c1", MessageID := "m1", Content := "hi",
    Sender := { ID := "u1", Username := "name", Avatar := "a.png" }, Created := 100 }

/-- Example registry: a connected participant u1 and a connected
non-participant u3, both with room for one queued event. -/
def csEx : List Client :=
  [{ userID := "u1", egress := [], capacity := 1 },
   { userID := "u3", egress := [], capacity := 1 }]

/-- Claim C3 witness: broadcasting mEx on chat c1 over registry csEx leaves
the connected non-participant u3 untouched and offers the event exactly once
to the connected participant u1. -/
theorem broadcast_fidelity_witness :
    offerLoop { userID := "u3", egress := [], capacity := 1 }
        { type := EventNewMessage, payload := .newMsg mEx } ["u1", "u2"]
      = ({ userID := "u3", egress := [], capacity := 1 }, 0) ∧
    offerLoop { userID := "u1", egress := [], capacity := 1 }
        { type := EventNewMessage, payload := .newMsg mEx } ["u1", "u2"]
      = (tryEnqueue { userID := "u1", egress := [], capacity := 1 }
          { type := EventNewMessage, payload := .newMsg mEx }, 1) := by
  have h := broadcast_fidelity wEx csEx
    (csEx.map (fun c =>
      (offerLoop c { type := EventNewMessage, payload := .newMsg mEx } ["u1", "u2"]).1))
    "c1" mEx ["u1", "u2"] rfl rfl
  exact ⟨h.2.1 { userID := "u3", egress := [], capacity := 1 } (by decide),
    h.2.2 { userID := "u1", egress := [], capacity := 1 } (by decide)⟩

/-- Claim C9: within one broadcast, each registered client is offered the
event at most once, even when the participant-id list contains the client
identity several times — the per-client scan stops at the first match. -/
theorem offer_at_most_once (c : Client) (e : Event) (pids : List String) :
    (offerLoop c e pids).2 ≤ 1 := by
  induction pids with
  | nil => simp [offerLoop]
  | cons pid rest ih =>
    by_cases h : c.userID = pid
    · simp [offerLoop, h]
    · simpa [offerLoop, h] using ih

/-! ## Send-message handler -/

/-- A storage-collaborator call performed by the handler, recorded in the
order the handler performs it. -/
inductive Eff where
  | isUserInChat (chatID userID : String)
  | createChatMessage (chatID userID content : String)
  | getUserByID (userID : String)
  | broadcast (chatID : String)
deriving DecidableEq, Repr

/-- SendMessage: the handler for inbound send_message events. Decoding the
payload, rejecting empty text, parsing the chat id, checking membership,
persisting, loading the sender profile and broadcasting happen strictly in
that order; the first failure aborts the handler with an error. Returns the
result, the trace of storage calls made, and the updated registry. -/
def SendMessage (w : World) (clients : List Client) (event : Event) (c : ClientCtx) :
    Except String Unit × List Eff × List Client :=
  match unmarshalSendMessage event.payload with
  | none => (.error "failed to unmarshal send message event", [], clients)
  | some sendMsgEvent =>
    if sendMsgEvent.Message = "" then
      (.error "message content cannot be empty", [], clients)
    else
      match w.uuidParse sendMsgEvent.ChatID with
      | none => (.error "invalid chat ID", [], clients)
      | some chatID =>
        match w.Chats.IsUserInChat chatID c.userID with
        | .error _ =>
          (.error "failed to verify chat membership",
            [.isUserInChat chatID c.userID], clients)
        | .ok false =>
          (.error "user is not a member of this chat",
            [.isUserInChat chatID c.userID], clients)
        | .ok true =>
          match w.Chats.CreateChatMessage chatID c.userID sendMsgEvent.Message with
          | .error _ =>
            (.error "failed to save message",
              [.isUserInChat chatID c.userID,
               .createChatMessage chatID c.userID sendMsgEvent.Message], clients)
          | .ok messageID =>
            match w.Users.GetUserByID c.userID with
            | .error _ =>
              (.error "failed to get sender info",
                [.isUserInChat chatID c.userID,
                 .createChatMessage chatID c.userID sendMsgEvent.Message,
                 .getUserByID c.userID], clients)
            | .ok sender =>
              let newMsgEvent : NewMessageEvent :=
                { ChatID := sendMsgEvent.ChatID, MessageID := messageID,
                  Content := sendMsgEvent.Message, Sender := sender, Created := w.now }
              match BroadcastToChatParticipants w clients chatID newMsgEvent with
              | .error _ =>
                (.error "failed to broadcast message",
                  [.isUserInChat chatID c.userID,
                   .createChatMessage chatID c.userID sendMsgEvent.Message,
                   .getUserByID c.userID, .broadcast chatID], clients)
              | .ok clients2 =>
                (.ok (),
                  [.isUserInChat chatID c.userID,
                   .createChatMessage chatID c.userID sendMsgEvent.Message,
                   .getUserByID c.userID, .broadcast chatID], clients2)

/-! ## Claim theorems: send-message handler -/

/-- Claim C2: the send-message handler is sequential and non-partial. A
payload that fails to decode, an empty message text, a malformed chat id, a
failing membership lookup or a non-member sender each abort the handler with
an error before any persistence call (for the two membership outcomes, the
trace holds exactly the membership lookup — CreateChatMessage is never
called), leaving the registry untouched; and whenever the broadcast step is
invoked, the persistence call succeeded beforehand. -/
theorem sendMessage_sequential (w : World) (cs : List Client) (ev : Event) (c : ClientCtx) :
    (unmarshalSendMessage ev.payload = none →
      SendMessage w cs ev c = (.error "failed to unmarshal send message event", [], cs)) ∧
    (∀ m, unmarshalSendMessage ev.payload = some m → m.Message = "" →
      SendMessage w cs ev c = (.error "message content cannot be empty", [], cs)) ∧
    (∀ m, unmarshalSendMessage ev.payload = some m → m.Message ≠ "" →
      w.uuidParse m.ChatID = none →
      SendMessage w cs ev c = (.error "invalid chat ID", [], cs)) ∧
    (∀ m chatID, unmarshalSendMessage ev.payload = some m → m.Message ≠ "" →
      w.uuidParse m.ChatID = some chatID →
      ((∀ e, w.Chats.IsUserInChat chatID c.userID = .error e →
        SendMessage w cs ev c = (.error "failed to verify chat membership",
          [.isUserInChat chatID c.userID], cs)) ∧
       (w.Chats.IsUserInChat chatID c.userID = .ok false →
        SendMessage w cs ev c = (.error "user is not a member of this chat",
          [.isUserInChat chatID c.userID], cs)))) ∧
    (∀ chatID, .broadcast chatID ∈ (SendMessage w cs ev c).2.1 →
      ∃ m mid, unmarshalSendMessage ev.payload = some m ∧
        w.uuidParse m.ChatID = some chatID ∧
        w.Chats.IsUserInChat chatID c.userID = .ok true ∧
        w.Chats.CreateChatMessage chatID c.userID m.Message = .ok mid) := by
  refine ⟨?_, ?_, ?_, ?_, ?_⟩
  · intro hm
    simp [SendMessage, hm]
  · intro m hm hempty
    simp [SendMessage, hm, hempty]
  · intro m hm hne hparse
    simp [SendMessage, hm, hne, hparse]
  · intro m chatID hm hne hparse
    constructor
    · intro e herr
      simp [SendMessage, hm, hne, hparse, herr]
    · intro hfalse
      simp [SendMessage, hm, hne, hparse, hfalse]
  · intro chatID hmem
    rw [SendMessage] at hmem
    cases hm : unmarshalSendMessage ev.payload with
    | none => simp only [hm] at hmem; simp at hmem
    | some m =>
      simp only [hm] at hmem
      by_cases hempty : m.Message = ""
      · simp only [if_pos hempty] at hmem; simp at hmem
      · simp only [if_neg hempty] at hmem
        cases hparse : w.uuidParse m.ChatID with
        | none => simp only [hparse] at hmem; simp at hmem
        | some cid =>
          simp only [hparse] at hmem
          cases hchat : w.Chats.IsUserInChat cid c.userID with
          | error e => simp only [hchat] at hmem; simp at hmem
          | ok b =>
            simp only [hchat] at hmem
            cases b with
            | false => simp at hmem
            | true =>
              cases hcreate : w.Chats.CreateChatMessage cid c.userID m.Message with
              | error e => simp only [hcreate] at hmem; simp at hmem
              | ok mid =>
                simp only [hcreate] at hmem
                have hcid : chatID = cid := by
                  cases huser : w.Users.GetUserByID c.userID with
                  | error e => simp only [huser] at hmem; simp at hmem
                  | ok sender =>
                    simp only [huser] at hmem
                    cases hb : BroadcastToChatParticipants w cs cid
                        { ChatID := m.ChatID, MessageID := mid, Content := m.Message,
                          Sender := sender, Created := w.now } with
                    | error e => simp only [hb] at hmem; simp at hmem; tauto
                    | ok cs2 => simp only [hb] at hmem; simp at hmem; tauto
                subst hcid
                exact ⟨m, mid, rfl, hparse, hchat, hcreate⟩

/-- Claim C2 witness: in the example world, a malformed payload, an empty
message, a bad chat id, a failing membership lookup and a non-member sender
each abort with an empty or membership-only trace and an unchanged registry,
and the successful path only reaches broadcast after persistence succeeded. -/
theorem sendMessage_sequential_witness :
    SendMessage wEx csEx { type := EventSendMessage, payload := .malformed } { userID := "u1" }
      = (.error "failed to unmarshal send message event", [], csEx) ∧
    SendMessage wEx csEx
        { type := EventSendMessage, payload := .sendMsg { ChatID := "c1", Message := "" } }
        { userID := "u1" }
      = (.error "message content cannot be empty", [], csEx) ∧
    SendMessage wEx csEx
        { type := EventSendMessage, payload := .sendMsg { ChatID := "bad", Message := "hi" } }
        { userID := "u1" }
      = (.error "invalid chat ID", [], csEx) ∧
    SendMessage wEx csEx
        { type := EventSendMessage, payload := .sendMsg { ChatID := "err", Message := "hi" } }
        { userID := "u1" }
      = (.error "failed to verify chat membership", [.isUserInChat "err" "u1"], csEx) ∧
    SendMessage wEx csEx
        { type := EventSendMessage, payload := .sendMsg { ChatID := "c1", Message := "hi" } }
        { userID := "u3" }
      = (.error "user is not a member of this chat", [.isUserInChat "c1" "u3"], csEx) ∧
    (∃ m mid, unmarshalSendMessage (EventPayload.sendMsg { ChatID := "c1", Message := "hi" })
        = some m ∧
      wEx.uuidParse m.ChatID = some "c1" ∧
      wEx.Chats.IsUserInChat "c1" "u1" = .ok true ∧
      wEx.Chats.CreateChatMessage "c1" "u1" m.Message = .ok mid) := by
  refine ⟨(sendMessage_sequential wEx csEx
      { type := EventSendMessage, payload := .malformed } { userID := "u1" }).1 rfl,
    (sendMessage_sequential wEx csEx
      { type := EventSendMessage, payload := .sendMsg { ChatID := "c1", Message := "" } }
      { userID := "u1" }).2.1 { ChatID := "c1", Message := "" } rfl rfl,
    (sendMessage_sequential wEx csEx
      { type := EventSendMessage, payload := .sendMsg { ChatID := "bad", Message := "hi" } }
      { userID := "u1" }).2.2.1 { ChatID := "bad", Message := "hi" } rfl (by decide) rfl,
    ((sendMessage_sequential wEx csEx
      { type := EventSendMessage, payload := .sendMsg { ChatID := "err", Message := "hi" } }
      { userID := "u1" }).2.2.2.1 { ChatID := "err", Message := "hi" } "err" rfl (by decide)
        rfl).1 "db down" rfl,
    ((sendMessage_sequential wEx csEx
      { type := EventSendMessage, payload := .sendMsg { ChatID := "c1", Message := "hi" } }
      { userID := "u3" }).2.2.2.1 { ChatID := "c1", Message := "hi" } "c1" rfl (by decide)
        rfl).2 rfl,
    (sendMessage_sequential wEx csEx
      { type := EventSendMessage, payload := .sendMsg { ChatID := "c1", Message := "hi" } }
      { userID := "u1" }).2.2.2.2 "c1" (by decide)⟩

/-- Claim C7: an event whose decoded message text is the empty string is
rejected before any storage operation: the handler returns an error, the
storage-call trace is empty (no membership check, no persistence, no
broadcast) and the registry is unchanged. -/
theorem sendMessage_empty_rejected (w : World) (cs : List Client) (ev : Event)
    (c : ClientCtx) (m : SendMessageEvent)
    (hm : unmarshalSendMessage ev.payload = some m) (hempty : m.Message = "") :
    SendMessage w cs ev c = (.error "message content cannot be empty", [], cs) := by
  simp [SendMessage, hm, hempty]

/-- Claim C7 witness: an empty message for chat c1 from user u1 in the example
world is rejected with an empty storage trace. -/
theorem sendMessage_empty_rejected_witness :
    SendMessage wEx csEx
        { type := EventSendMessage, payload := .sendMsg { ChatID := "c1", Message := "" } }
        { userID := "u1" }
      = (.error "message content cannot be empty", [], csEx) :=
  sendMessage_empty_rejected wEx csEx
    { type := EventSendMessage, payload := .sendMsg { ChatID := "c1", Message := "" } }
    { userID := "u1" } { ChatID := "c1", Message := "" } rfl rfl

/-! ## Event router -/

/-- The type of event handlers, as registered in the manager. -/
abbrev EventHandler : Type := Event → ClientCtx → Except String Unit

/-- The Go map from event type strings to handlers. -/
abbrev HandlerMap : Type := String → Option EventHandler

/-- routeEvent: look the handler up by the event type; run it and propagate
its error; an unregistered type is an explicit error. -/
def routeEvent (handlers : HandlerMap) (event : Event) (c : ClientCtx) :
    Except String Unit :=
  match handlers event.type with
  | some handler =>
    match handler event c with
    | .error err => .error err
    | .ok _ => .ok ()
  | none => .error "event type not found"

/-- setupEventHandlers: the registry populated once when the manager is
constructed, holding exactly the send_message handler. -/
def setupEventHandlers (w : World) (clients : List Client) : HandlerMap :=
  fun t =>
    if t = EventSendMessage then
      some (fun event c => (SendMessage w clients event c).1)
    else none

/-! ## Claim theorems: event router -/

/-- Claim C8: routeEvent returns an error exactly when the event type has no
handler in the registry (unrecognized types are an explicit error, never
silently dropped) or the looked-up handler itself returns an error; and the
registry built at startup holds a handler exactly for the send_message type. -/
theorem routeEvent_error_iff (handlers : HandlerMap) (ev : Event) (c : ClientCtx) :
    ((routeEvent handlers ev c ≠ .ok ()) ↔
      handlers ev.type = none ∨
        ∃ h e, handlers ev.type = some h ∧ h ev c = .error e) ∧
    (∀ (w : World) (cs : List Client) (t : String),
      (setupEventHandlers w cs t).isSome ↔ t = EventSendMessage) := by
  constructor
  · constructor
    · intro he
      cases hl : handlers ev.type with
      | none => exact Or.inl rfl
      | some h =>
        cases hh : h ev c with
        | error e => exact Or.inr ⟨h, e, rfl, hh⟩
        | ok u =>
          exfalso
          apply he
          cases u
          simp [routeEvent, hl, hh]
    · intro hor
      rcases hor with hn | ⟨h, e, hl, hh⟩
      · simp [routeEvent, hn]
      · simp [routeEvent, hl, hh]
  · intro w cs t
    by_cases ht : t = EventSendMessage <;> simp [setupEventHandlers, ht]

/-- Claim C8 witness: in the startup registry over the example world, an
event of unknown type errors, a send_message event with a decodable non-empty
payload from a member succeeds, and one with an undecodable payload errors. -/
theorem routeEvent_error_iff_witness :
    routeEvent (setupEventHandlers wEx csEx)
        { type := "bogus_type", payload := .malformed } { userID := "u1" } ≠ .ok () ∧
    routeEvent (setupEventHandlers wEx csEx)
        { type := EventSendMessage, payload := .malformed } { userID := "u1" } ≠ .ok () ∧
    routeEvent (setupEventHandlers wEx csEx)
        { type := EventSendMessage,
          payload := .sendMsg { ChatID := "c1", Message := "hi" } } { userID := "u1" }
      = .ok () := by
  refine ⟨?_, ?_, by rfl⟩
  · exact (routeEvent_error_iff (setupEventHandlers wEx csEx)
      { type := "bogus_type", payload := .malformed } { userID := "u1" }).1.mpr
      (Or.inl (by rfl))
  · exact (routeEvent_error_iff (setupEventHandlers wEx csEx)
      { type := EventSendMessage, payload := .malformed } { userID := "u1" }).1.mpr
      (Or.inr ⟨fun event c => (SendMessage wEx csEx event c).1,
        "failed to unmarshal send message event", by rfl, by rfl⟩)

/-! ## Connection registry teardown -/

/-- The observable state touched by removeClient: which actor identities the
registry currently holds (the Go map ClientList keyed by actor pointer,
embedded by its key-set function) and how many times each actor socket had
Close called on it. -/
structure RegistryState where
  clients : Nat → Bool
  closeCount : Nat → Nat

/-- addClient: register an actor under the write lock. -/
def addClient (st : RegistryState) (client : Nat) : RegistryState :=
  { st with clients := fun k => if k = client then true else st.clients k }

/-- removeClient: under the write lock, if the actor is still registered,
close its socket and delete it from the registry; otherwise do nothing. -/
def removeClient (st : RegistryState) (client : Nat) : RegistryState :=
  if st.clients client then
    { clients := fun k => if k = client then false else st.clients k,
      closeCount := fun k => if k = client then st.closeCount k + 1 else st.closeCount k }
  else st

/-! ## Claim theorems: registry teardown -/

/-- Claim C6: actor removal is idempotent. A second removeClient for the same
actor changes nothing observable: the registry key set and every close count
are exactly those after the first removal, so the socket is not closed
again. -/
theorem removeClient_idempotent (st : RegistryState) (client : Nat) :
    removeClient (removeClient st client) client = removeClient st client := by
  by_cases h : st.clients client = true
  · simp [removeClient, h]
  · simp [removeClient, h]

/-! ## Upgrade gateway -/

/-- An upgrade request as the gateway consumes it: the otp query parameter
(the empty string when absent, as URL.Query().Get returns), the Origin
header, and whether the rest of the websocket handshake is well formed. -/
structure UpgradeRequest where
  otpQuery : String
  origin : String
  handshakeOK : Bool
deriving DecidableEq, Repr

/-- The HTTP outcome written for an upgrade request. -/
inductive UpgradeResponse where
  | switchingProtocols
  | unauthorized
  | forbidden
  | badRequest
deriving DecidableEq, Repr

/-- checkOrigin: the explicit origin allow-list. -/
def checkOrigin (origin : String) : Bool :=
  match origin with
  | "http://localhost:8888" => true
  | _ => false

/-- Modelled from the gorilla/websocket dependency (an external library, not
part of src): Upgrader.Upgrade first consults the configured CheckOrigin and
aborts the handshake with HTTP 403 Forbidden when it returns false; an
otherwise malformed handshake is rejected with 400 Bad Request; otherwise the
protocol switch succeeds. -/
def upgraderUpgrade (r : UpgradeRequest) : Except UpgradeResponse Unit :=
  if checkOrigin r.origin = false then .error .forbidden
  else if r.handshakeOK = false then .error .badRequest
  else .ok ()

/-- The manager state the gateway touches: the credential store and the
connection registry. -/
structure ManagerState where
  OTPs : RetentionMap
  Clients : List Client
deriving DecidableEq, Repr

/-- ServeWebsocket: reject with Unauthorized when the otp query parameter is
absent or fails verification; then attempt the protocol upgrade (which
enforces the origin allow-list); only on upgrade success construct an actor
bound to the credential owner and register it. -/
def ServeWebsocket (st : ManagerState) (r : UpgradeRequest) (capacity : Nat) :
    UpgradeResponse × ManagerState :=
  if r.otpQuery = "" then (.unauthorized, st)
  else
    let vr := VerifyOTP st.OTPs r.otpQuery
    if vr.1.2 = false then (.unauthorized, { st with OTPs := vr.2 })
    else
      match upgraderUpgrade r with
      | .error resp => (resp, { st with OTPs := vr.2 })
      | .ok _ =>
        (.switchingProtocols,
          { OTPs := vr.2, Clients := NewClient vr.1.1.UserID capacity :: st.Clients })

/-! ## Claim theorems: upgrade gateway -/

/-- Claim C5 counterexample: with token tokA issued to u1 and present in the
store, an upgrade request carrying this valid token from the disallowed
origin http://evil.example is answered with Forbidden, not Unauthorized. -/
theorem serveWebsocket_origin_not_unauthorized :
    (ServeWebsocket { OTPs := [("tokA", ⟨"tokA", "u1", 0⟩)], Clients := [] }
        { otpQuery := "tokA", origin := "http://evil.example", handshakeOK := true } 1).1
      = .forbidden ∧
    (ServeWebsocket { OTPs := [("tokA", ⟨"tokA", "u1", 0⟩)], Clients := [] }
        { otpQuery := "tokA", origin := "http://evil.example", handshakeOK := true } 1).1
      ≠ .unauthorized := by
  constructor <;> decide

/-- Claim C5 (amended): a missing otp query parameter is answered with
Unauthorized and the state is untouched; a token that fails verification is
answered with Unauthorized and no actor is registered; a valid token with an
Origin not on the allow-list is rejected by the upgrade library with
Forbidden (not Unauthorized) and no actor is registered; and in every outcome
other than a successful protocol switch the connection registry is
unchanged. -/
theorem serveWebsocket_reject (st : ManagerState) (r : UpgradeRequest) (capacity : Nat) :
    (r.otpQuery = "" → ServeWebsocket st r capacity = (.unauthorized, st)) ∧
    (r.otpQuery ≠ "" → (VerifyOTP st.OTPs r.otpQuery).1.2 = false →
      (ServeWebsocket st r capacity).1 = .unauthorized ∧
      (ServeWebsocket st r capacity).2.Clients = st.Clients) ∧
    (r.otpQuery ≠ "" → (VerifyOTP st.OTPs r.otpQuery).1.2 = true →
      checkOrigin r.origin = false →
      (ServeWebsocket st r capacity).1 = .forbidden ∧
      (ServeWebsocket st r capacity).2.Clients = st.Clients) ∧
    ((ServeWebsocket st r capacity).1 ≠ .switchingProtocols →
      (ServeWebsocket st r capacity).2.Clients = st.Clients) := by
  refine ⟨?_, ?_, ?_, ?_⟩
  · intro h
    simp [ServeWebsocket, h]
  · intro h hv
    simp [ServeWebsocket, h, hv]
  · intro h hv hco
    have hu : upgraderUpgrade r = .error .forbidden := by
      simp [upgraderUpgrade, hco]
    simp [ServeWebsocket, h, hv, hu]
  · intro hne
    by_cases h : r.otpQuery = ""
    · simp [ServeWebsocket, h]
    · by_cases hv : (VerifyOTP st.OTPs r.otpQuery).1.2 = false
      · simp [ServeWebsocket, h, hv]
      · cases hu : upgraderUpgrade r with
        | error resp => simp [ServeWebsocket, h, hv, hu]
        | ok u =>
          exfalso
          apply hne
          cases u
          simp [ServeWebsocket, h, hv, hu]

/-- Claim C5 witness: over a store holding tokA for u1 and an empty registry,
a request with no token gets Unauthorized; a request with the unknown token
nope gets Unauthorized with the registry untouched; a request with the valid
token from a disallowed origin gets Forbidden with the registry untouched;
and that Forbidden outcome, not being a protocol switch, leaves the registry
untouched. -/
theorem serveWebsocket_reject_witness :
    ServeWebsocket { OTPs := [("tokA", ⟨"tokA", "u1", 0⟩)], Clients := [] }
        { otpQuery := "", origin := "http://localhost:8888", handshakeOK := true } 1
      = (.unauthorized, { OTPs := [("tokA", ⟨"tokA", "u1", 0⟩)], Clients := [] }) ∧
    ((ServeWebsocket { OTPs := [("tokA", ⟨"tokA", "u1", 0⟩)], Clients := [] }
        { otpQuery := "nope", origin := "http://localhost:8888", handshakeOK := true } 1).1
      = .unauthorized ∧
     (ServeWebsocket { OTPs := [("tokA", ⟨"tokA", "u1", 0⟩)], Clients := [] }
        { otpQuery := "nope", origin := "http://localhost:8888", handshakeOK := true } 1).2.Clients
      = []) ∧
    ((ServeWebsocket { OTPs := [("tokA", ⟨"tokA", "u1", 0⟩)], Clients := [] }
        { otpQuery := "tokA", origin := "http://evil.example", handshakeOK := true } 1).1
      = .forbidden ∧
     (ServeWebsocket { OTPs := [("tokA", ⟨"tokA", "u1", 0⟩)], Clients := [] }
        { otpQuery := "tokA", origin := "http://evil.example", handshakeOK := true } 1).2.Clients
      = []) := by
  refine ⟨(serveWebsocket_reject { OTPs := [("tokA", ⟨"tokA", "u1", 0⟩)], Clients := [] }
      { otpQuery := "", origin := "http://localhost:8888", handshakeOK := true } 1).1 rfl,
    (serveWebsocket_reject { OTPs := [("tokA", ⟨"tokA", "u1", 0⟩)], Clients := [] }
      { otpQuery := "nope", origin := "http://localhost:8888", handshakeOK := true } 1).2.1
      (by decide) (by decide),
    (serveWebsocket_reject { OTPs := [("tokA", ⟨"tokA", "u1", 0⟩)], Clients := [] }
      { otpQuery := "tokA", origin := "http://evil.example", handshakeOK := true } 1).2.2.1
      (by decide) (by decide) (by decide)⟩

/-! ## Outbound loop of the connection actor -/

/-- One select iteration of Client.writeMessages, by the case the select took
and the success of each socket write it performs. recv: a message arrived on
the egress channel (the channel was open). closedQueue: the receive reported
a closed channel, a close frame is written, and — because control then falls
through — the zero-valued message is marshalled and written. tick: the
keepalive ticker fired and a ping frame is written. -/
inductive WriteCase where
  | recv (marshalOK : Bool) (writeOK : Bool)
  | closedQueue (closeWriteOK : Bool) (marshalOK : Bool) (writeOK : Bool)
  | tick (pingWriteOK : Bool)
deriving DecidableEq, Repr

/-- Whether the outbound loop runs another iteration or exits. -/
inductive LoopOutcome where
  | next
  | stop
deriving DecidableEq, Repr

/-- The control flow of one writeMessages iteration, transcribed from the
loop body: a failed close-frame write returns; a failed marshal returns; a
failed data write is only logged; a failed ping write returns. -/
def writeStep : WriteCase → LoopOutcome
  | .recv marshalOK _writeOK =>
    if marshalOK then .next else .stop
  | .closedQueue closeWriteOK marshalOK _writeOK =>
    if closeWriteOK then (if marshalOK then .next else .stop) else .stop
  | .tick pingWriteOK =>
    if pingWriteOK then .next else .stop

/-- Claim C4 evaluation: the loop does NOT exit when the egress queue is
closed and the close-frame write succeeds, and does NOT exit when the write
of a queued message fails (it is only logged); it does exit on any ping write
failure and on a failed close-frame write. This contradicts the claim that
queue closure and data-write failure terminate the loop immediately. -/
theorem writeStep_divergence :
    writeStep (.closedQueue true true true) = .next ∧
    writeStep (.recv true false) = .next ∧
    (∀ marshalOK writeOK,
      writeStep (.closedQueue false marshalOK writeOK) = .stop) ∧
    writeStep (.tick false) = .stop ∧
    writeStep (.tick true) = .next :=
  ⟨rfl, rfl, fun _ _ => rfl, rfl, rfl⟩

end Codex
